import Mathlib

/-!
Verification development for the CADence CAD-probability calculator.

The definitions below are a shallow embedding of the repository's
calculation layer (`src/utils/calculations.py`, constants from
`src/constants/clinical_constants.py` and
`src/constants/likelihood_ratios.py`) and of the recommendation engine
(`src/components/recommendations.py`).

Modelling conventions:
- Python floats are modelled as exact reals (`ℝ`) where `np.exp` is
  involved (`calculate_rf_cl`) and as rationals (`ℚ`) elsewhere.
- Python dicts iterated with `.items()` are modelled as association
  lists; dicts only read through `.get` are modelled as total functions
  (`String → Bool` for completion flags, where a missing key reads as
  `False`, and `String → Option String` for result lookups, where a
  missing key reads as `none`).
- A Python runtime error (`ZeroDivisionError` on `p/(100-p)` at `p = 100`,
  `KeyError` on an LR-table lookup `positive_lr[test]` for a key absent
  from the table) is modelled by returning `none` from an
  `Option`-valued function.
- `st.session_state.test_results`, the ambient store read by
  `get_recommendations`, is passed as an explicit final argument
  `test_results` so that dependence on it can be stated.
-/

namespace CADence

/-! ### Constants from `src/constants/clinical_constants.py` -/

def CONST : ℝ := -9.5260
def SEX_COEF : ℝ := 1.6128
def AGE_COEF : ℝ := 0.08440
def TYPICAL_COEF : ℝ := 2.7112
def NON_ANGINAL_COEF : ℝ := -0.4675
def AGE_TYPICAL_COEF : ℝ := -0.0187
def AGE_RF_COEF : ℝ := -0.0131
def TYPICAL_RF_COEF : ℝ := -0.2799
def SEX_RF_COEF : ℝ := -0.2091

/-! ### Likelihood-ratio tables from `src/constants/likelihood_ratios.py`
(dicts, modelled as association lists in source order) -/

def ANATOMICAL_POSITIVE_LR : List (String × ℚ) :=
  [("stress_ecg", 1.53), ("stress_echo", 4.67), ("spect", 2.88),
   ("pet", 5.87), ("stress_cmr", 4.54), ("ccta", 4.44)]

def ANATOMICAL_NEGATIVE_LR : List (String × ℚ) :=
  [("stress_ecg", 0.68), ("stress_echo", 0.18), ("spect", 0.19),
   ("pet", 0.12), ("stress_cmr", 0.13), ("ccta", 0.04)]

def FUNCTIONAL_POSITIVE_LR : List (String × ℚ) :=
  [("spect", 4.21), ("pet", 6.04), ("stress_cmr", 7.10), ("ccta", 1.97)]

def FUNCTIONAL_NEGATIVE_LR : List (String × ℚ) :=
  [("spect", 0.33), ("pet", 0.13), ("stress_cmr", 0.13), ("ccta", 0.13)]

/-! ### `src/utils/calculations.py` -/

/-- Lines 41-46 of `calculate_rf_cl`: bucket the risk-factor count into
the `nb_rf` category (`rf_count ≤ 1 → 1`, `rf_count ≤ 3 → 2`, else `3`). -/
def nb_rf_of_count (rf_count : ℕ) : ℕ :=
  if rf_count ≤ 1 then 1 else if rf_count ≤ 3 then 2 else 3

/-- `calculate_rf_cl(age, sex_binary, symptoms, risk_factors)`:
Risk Factor-weighted Clinical Likelihood (Winther et al. 2020).
`risk_factors` is the dict of flags; only the number of `true` flags is
used (`sum(1 for rf, has_rf in risk_factors.items() if has_rf)`). -/
noncomputable def calculate_rf_cl (age : ℤ) (sex_binary : ℤ) (symptoms : String)
    (risk_factors : List (String × Bool)) : ℝ :=
  let symp_typical : ℝ := if symptoms = "typical" then 1 else 0
  let symp_non_anginal : ℝ := if symptoms = "non_anginal" then 1 else 0
  let rf_count : ℕ := risk_factors.countP (fun p => p.2)
  let nb_rf : ℝ := (nb_rf_of_count rf_count : ℝ)
  let logit : ℝ := CONST +
    SEX_COEF * (sex_binary : ℝ) +
    AGE_COEF * (age : ℝ) +
    TYPICAL_COEF * symp_typical +
    NON_ANGINAL_COEF * symp_non_anginal +
    1.4940 * nb_rf +
    AGE_TYPICAL_COEF * (age : ℝ) * symp_typical +
    AGE_RF_COEF * (age : ℝ) * nb_rf +
    TYPICAL_RF_COEF * symp_typical * nb_rf +
    SEX_RF_COEF * (sex_binary : ℝ) * nb_rf
  let probability : ℝ := 1 / (1 + Real.exp (-logit))
  min (probability * 100) 100

/-- `calculate_cacs_cl(rf_cl, cacs)`: CACS-weighted Clinical Likelihood. -/
def calculate_cacs_cl (rf_cl : ℚ) (cacs : ℤ) : ℚ :=
  let rf_ptp : ℚ := rf_cl / 100
  let cacs_1_9 : ℚ := if 1 ≤ cacs ∧ cacs ≤ 9 then 1 else 0
  let cacs_10_99 : ℚ := if 10 ≤ cacs ∧ cacs ≤ 99 then 1 else 0
  let cacs_100_399 : ℚ := if 100 ≤ cacs ∧ cacs ≤ 399 then 1 else 0
  let cacs_400_999 : ℚ := if 400 ≤ cacs ∧ cacs ≤ 999 then 1 else 0
  let cacs_1000 : ℚ := if 1000 ≤ cacs then 1 else 0
  let probability : ℚ :=
    0.0013 +
    rf_ptp * 0.2021 +
    cacs_1_9 * 0.0082 +
    cacs_10_99 * 0.0238 +
    cacs_100_399 * 0.1131 +
    cacs_400_999 * 0.2306 +
    cacs_1000 * 0.4040 +
    rf_ptp * cacs_1_9 * 0.1311 +
    rf_ptp * cacs_10_99 * 0.2909 +
    rf_ptp * cacs_100_399 * 0.4077 +
    rf_ptp * cacs_400_999 * 0.4658 +
    rf_ptp * cacs_1000 * 0.4489
  min (probability * 100) 100

/-- The `for test, result in test_results.items()` loop of
`adjust_likelihood_for_test_results` (lines 124-128): multiply the odds
by the matching LR for each Positive/Negative result, skipping other
result strings; a lookup of a test absent from the selected table is a
Python `KeyError`, modelled as `none`. -/
def apply_test_lrs (positive_lr negative_lr : List (String × ℚ)) :
    List (String × String) → ℚ → Option ℚ
  | [], odds => some odds
  | (test, result) :: rest, odds =>
    if result = "Positive" then
      match positive_lr.lookup test with
      | some lr => apply_test_lrs positive_lr negative_lr rest (odds * lr)
      | none => none
    else if result = "Negative" then
      match negative_lr.lookup test with
      | some lr => apply_test_lrs positive_lr negative_lr rest (odds * lr)
      | none => none
    else
      apply_test_lrs positive_lr negative_lr rest odds

/-- `adjust_likelihood_for_test_results(base_probability, test_results,
reference_standard)`: adjust the likelihood through the odds transform.
`odds = base_probability / (100 - base_probability)` raises
`ZeroDivisionError` when `base_probability = 100` (modelled as `none`),
and `odds / (1 + odds)` would likewise raise when `1 + odds = 0`. -/
def adjust_likelihood_for_test_results (base_probability : ℚ)
    (test_results : List (String × String))
    (reference_standard : String) : Option ℚ :=
  let positive_lr :=
    if reference_standard = "functional" then FUNCTIONAL_POSITIVE_LR
    else ANATOMICAL_POSITIVE_LR
  let negative_lr :=
    if reference_standard = "functional" then FUNCTIONAL_NEGATIVE_LR
    else ANATOMICAL_NEGATIVE_LR
  if 100 - base_probability = 0 then none
  else
    let odds : ℚ := base_probability / (100 - base_probability)
    (apply_test_lrs positive_lr negative_lr test_results odds).bind fun odds =>
      if 1 + odds = 0 then none
      else some (min ((odds / (1 + odds)) * 100) 100)


/-! ### `src/components/recommendations.py` -/

/-- The `Recommendation` TypedDict (lines 6-13). -/
structure Recommendation where
  test : String
  reason : String
  performance : String
  recommendation_quote : String
  class_ : Option String
  level : Option String
deriving DecidableEq

/-- Recommendation record appended at line 44 of `get_recommendations`. -/
def ccta_high_risk_rec : Recommendation :=
  { test := "Invasive Coronary Angiography"
    reason := "High event risk on CCTA - ≥50% left main stenosis, or ≥70% proximal LAD stenosis with single or two-vessel CAD, or ≥70% proximal three-vessel CAD"
    performance := "ICA with coronary pressure assessment"
    recommendation_quote := "*\"In individuals at high risk of adverse events (regardless of symptoms), ICA—complemented by invasive coronary pressure (FFR/iFR) when appropriate—is recommended, with the aim of refining risk stratification and improving symptoms and cardiovascular outcomes by revascularization.\"*\n\n> Invasive coronary angiography/coronary pressure assessment is indicated if non-invasive assessment suggests high event risk—e.g. CCTA shows ≥50% left main stenosis, or ≥70% proximal LAD stenosis with single or two-vessel CAD, or ≥70% proximal three-vessel CAD—or when any stress test shows moderate to severe inducible ischaemia or when symptoms are highly suggestive of obstructive CAD."
    class_ := some "I"
    level := some "A" }

/-- Recommendation record appended at line 70 of `get_recommendations`. -/
def functional_high_risk_rec : Recommendation :=
  { test := "Invasive Coronary Angiography"
    reason := "High event risk on functional testing - moderate to severe inducible ischaemia"
    performance := "ICA with coronary pressure assessment"
    recommendation_quote := "*\"In individuals at high risk of adverse events (regardless of symptoms), ICA—complemented by invasive coronary pressure (FFR/iFR) when appropriate—is recommended, with the aim of refining risk stratification and improving symptoms and cardiovascular outcomes by revascularization.\"*\n\n> Invasive coronary angiography/coronary pressure assessment is indicated if non-invasive assessment suggests high event risk—e.g. CCTA shows ≥50% left main stenosis, or ≥70% proximal LAD stenosis with single or two-vessel CAD, or ≥70% proximal three-vessel CAD—or when any stress test shows moderate to severe inducible ischaemia or when symptoms are highly suggestive of obstructive CAD."
    class_ := some "I"
    level := some "A" }

/-- Recommendation record appended at line 95 of `get_recommendations`. -/
def very_high_ptp_rec : Recommendation :=
  { test := "Invasive Coronary Angiography"
    reason := "Very high pre-test probability"
    performance := "Direct referral for invasive testing with FFR capability"
    recommendation_quote := "*\"In individuals at high risk of adverse events (regardless of symptoms), ICA—complemented by invasive coronary pressure (FFR/iFR) when appropriate—is recommended.\"*"
    class_ := some "I"
    level := some "A" }

/-- Recommendation record appended at line 112 of `get_recommendations`. -/
def ica_uncertain_rec : Recommendation :=
  { test := "Invasive Coronary Angiography"
    reason := "Uncertain diagnosis after non-invasive testing"
    performance := "ICA with FFR capability"
    recommendation_quote := "*\"Invasive coronary angiography with the availability of invasive functional assessments is recommended to confirm or exclude the diagnosis of obstructive CAD or ANOCA/INOCA in individuals with an uncertain diagnosis on non-invasive testing.\"*"
    class_ := some "I"
    level := some "B" }

/-- Recommendation record appended at line 126 of `get_recommendations`. -/
def anoca_both_negative_rec : Recommendation :=
  { test := "Consider ANOCA/INOCA"
    reason := "Obstructive CAD excluded but symptoms persist"
    performance := "Consider invasive coronary functional testing to assess for microvascular or vasospastic disease if appropriate"
    recommendation_quote := "*\"In persistently symptomatic patients despite medical treatment with suspected ANOCA/INOCA (i.e. anginal symptoms with normal coronary arteries or non-obstructive lesions at non-invasive imaging) and poor quality of life, invasive coronary functional testing is recommended to identify potentially treatable endotypes and to improve symptoms and quality of life, considering patient choices and preferences.\"*"
    class_ := some "I"
    level := some "B" }

/-- Recommendation record appended at line 143 of `get_recommendations`. -/
def functional_imaging_rec : Recommendation :=
  { test := "Non-invasive Functional Imaging"
    reason := "CAD of uncertain functional significance on CCTA"
    performance := "Functional testing recommended"
    recommendation_quote := "*\"Functional imaging for myocardial ischaemia is recommended if CCTA has shown CAD of uncertain functional significance or is not diagnostic.\"*"
    class_ := some "I"
    level := some "B" }

/-- Recommendation record appended at line 159 of `get_recommendations`. -/
def ccta_nondiagnostic_rec : Recommendation :=
  { test := "CCTA"
    reason := "Non-diagnostic functional test"
    performance := "CCTA recommended when functional test is non-diagnostic"
    recommendation_quote := "*\"CCTA is recommended in individuals with low or moderate (>5%–50%) pre-test likelihood if functional imaging for myocardial ischaemia is not diagnostic.\"*"
    class_ := some "I"
    level := some "B" }

/-- Recommendation record appended at line 172 of `get_recommendations`. -/
def ccta_rule_out_rec : Recommendation :=
  { test := "CCTA"
    reason := "Rule out obstructive CAD in appropriate PTP range"
    performance := "CCTA recommended to confirm absence of obstructive CAD"
    recommendation_quote := "*\"To rule out obstructive CAD in individuals with low or moderate (>5%–50%) pre-test likelihood, CCTA is recommended as the preferred diagnostic modality.\"*"
    class_ := some "I"
    level := some "B" }

/-- Recommendation record appended at line 183 of `get_recommendations`. -/
def anoca_low_ptp_rec : Recommendation :=
  { test := "Consider ANOCA/INOCA"
    reason := "Negative functional tests with very low PTP suggests non-obstructive cause"
    performance := "Consider invasive coronary functional testing to assess for microvascular or vasospastic disease"
    recommendation_quote := "*\"In persistently symptomatic patients despite medical treatment with suspected ANOCA/INOCA (i.e. anginal symptoms with normal coronary arteries or non-obstructive lesions at non-invasive imaging) and poor quality of life, invasive coronary functional testing is recommended to identify potentially treatable endotypes and to improve symptoms and quality of life, considering patient choices and preferences.\"*"
    class_ := some "I"
    level := some "B" }

/-- Recommendation record appended at line 201 of `get_recommendations`. -/
def defer_testing_rec : Recommendation :=
  { test := "Consider Defer Testing"
    reason := "Very low pre-test probability"
    performance := "Risk of false positives exceeds benefit"
    recommendation_quote := "*\"In individuals with a very low (≤5%) pre-test likelihood of obstructive CAD, deferral of further diagnostic tests should be considered.\"*"
    class_ := some "IIa"
    level := some "B" }

/-- Recommendation record appended at line 213 of `get_recommendations`. -/
def ccta_or_functional_rec : Recommendation :=
  { test := "CCTA or Functional Imaging"
    reason := "Low or moderate pre-test probability"
    performance := "Either modality appropriate"
    recommendation_quote := "*\"In symptomatic patients in whom the pre-test likelihood of obstructive CAD is >5%, CCTA or non-invasive functional imaging for myocardial ischaemia is recommended as the initial diagnostic test.\"*"
    class_ := some "I"
    level := some "B" }

/-- Recommendation record appended at line 226 of `get_recommendations`. -/
def functional_imaging_high_rec : Recommendation :=
  { test := "Functional Imaging"
    reason := "High pre-test probability"
    performance := "Functional imaging preferred"
    recommendation_quote := "*\"In individuals with suspected CCS and moderate or high (>15%–85%) pre-test likelihood of obstructive CAD, stress imaging is recommended to diagnose myocardial ischaemia and estimate the risk of MACE.\"*"
    class_ := some "I"
    level := some "B" }

/-- The fixed list of functional tests iterated by `get_recommendations`
(lines 37-38, 68, 111, 157). -/
def functional_tests : List String :=
  ["stress_ecg", "stress_echo", "spect", "pet", "stress_cmr"]

/-- `get_recommendations(adjusted_ptp, completed_tests)` (lines 15-239).
`completed_tests` models the dict read through `.get` with a falsy
default; `test_results` models the ambient `st.session_state.test_results`
store, also read through `.get` (a missing key reads as `none`), passed
here as an explicit trailing argument.  The functional high-risk loop
(lines 67-89) appends one fixed record and returns on the first completed
functional test with a Positive result, so it yields that single record
exactly when such a test exists. -/
def get_recommendations (adjusted_ptp : ℚ) (completed_tests : String → Bool)
    (test_results : String → Option String) : List Recommendation :=
  let has_ccta : Bool := completed_tests "ccta_done"
  let has_functional : Bool :=
    functional_tests.any (fun t => completed_tests (t ++ "_done"))
  if has_ccta ∧ test_results "ccta" = some "Positive" then
    [ccta_high_risk_rec]
  else if has_functional ∧ functional_tests.any (fun t =>
      completed_tests (t ++ "_done") && decide (test_results t = some "Positive")) then
    [functional_high_risk_rec]
  else if adjusted_ptp > 85 then
    [very_high_ptp_rec]
  else if has_ccta ∧ has_functional then
    if test_results "ccta" = some "Positive" ∨
        functional_tests.any (fun t => decide (test_results t = some "Positive")) then
      [ica_uncertain_rec]
    else
      [anoca_both_negative_rec]
  else if has_ccta ∧ ¬has_functional ∧ test_results "ccta" ≠ some "Positive" then
    [functional_imaging_rec]
  else if has_functional ∧ ¬has_ccta then
    if functional_tests.any (fun t =>
        completed_tests (t ++ "_done") && decide (test_results t = some "Non-diagnostic")) then
      [ccta_nondiagnostic_rec]
    else if 5 < adjusted_ptp ∧ adjusted_ptp ≤ 50 then
      [ccta_rule_out_rec]
    else if adjusted_ptp ≤ 5 then
      [anoca_low_ptp_rec]
    else
      []
  else if ¬has_ccta ∧ ¬has_functional then
    if adjusted_ptp ≤ 5 then
      [defer_testing_rec]
    else if 5 < adjusted_ptp ∧ adjusted_ptp ≤ 50 then
      [ccta_or_functional_rec]
    else if 50 < adjusted_ptp ∧ adjusted_ptp ≤ 85 then
      [functional_imaging_high_rec]
    else
      []
  else
    []


/-! ### Helper lemmas -/

/-- Every value in `ANATOMICAL_POSITIVE_LR` is positive. -/
theorem anatomical_positive_lr_pos : ∀ p ∈ ANATOMICAL_POSITIVE_LR, (0 : ℚ) < p.2 := by
  intro p hp
  fin_cases hp <;> norm_num

/-- Every value in `ANATOMICAL_NEGATIVE_LR` is positive. -/
theorem anatomical_negative_lr_pos : ∀ p ∈ ANATOMICAL_NEGATIVE_LR, (0 : ℚ) < p.2 := by
  intro p hp
  fin_cases hp <;> norm_num

/-- Every value in `FUNCTIONAL_POSITIVE_LR` is positive. -/
theorem functional_positive_lr_pos : ∀ p ∈ FUNCTIONAL_POSITIVE_LR, (0 : ℚ) < p.2 := by
  intro p hp
  fin_cases hp <;> norm_num

/-- Every value in `FUNCTIONAL_NEGATIVE_LR` is positive. -/
theorem functional_negative_lr_pos : ∀ p ∈ FUNCTIONAL_NEGATIVE_LR, (0 : ℚ) < p.2 := by
  intro p hp
  fin_cases hp <;> norm_num

/-- A successful lookup in a table of positive values returns a positive value. -/
theorem lookup_pos (l : List (String × ℚ)) (hl : ∀ p ∈ l, (0 : ℚ) < p.2) :
    ∀ t v, l.lookup t = some v → 0 < v := by
  induction l with
  | nil => intro t v h; simp [List.lookup] at h
  | cons hd tl ih =>
    intro t v h
    rw [List.lookup] at h
    cases hb : (t == hd.1) with
    | true =>
      simp only [hb] at h
      cases h
      exact hl hd (List.mem_cons_self _ _)
    | false =>
      simp only [hb] at h
      exact ih (fun p hp => hl p (List.mem_cons_of_mem _ hp)) t v h

/-- The likelihood-ratio loop over tables of positive values preserves
nonnegativity of the odds. -/
theorem apply_test_lrs_nonneg (plr nlr : List (String × ℚ))
    (hp : ∀ p ∈ plr, (0 : ℚ) < p.2) (hn : ∀ p ∈ nlr, (0 : ℚ) < p.2) :
    ∀ (tr : List (String × String)) (odds odds' : ℚ), 0 ≤ odds →
      apply_test_lrs plr nlr tr odds = some odds' → 0 ≤ odds' := by
  intro tr
  induction tr with
  | nil =>
    intro odds odds' h0 h
    simp only [apply_test_lrs, Option.some.injEq] at h
    exact h ▸ h0
  | cons hd tl ih =>
    obtain ⟨test, result⟩ := hd
    intro odds odds' h0 h
    rw [apply_test_lrs] at h
    by_cases hres : result = "Positive"
    · rw [if_pos hres] at h
      cases hlk : plr.lookup test with
      | none => rw [hlk] at h; cases h
      | some lr =>
        rw [hlk] at h
        exact ih (odds * lr) odds'
          (mul_nonneg h0 (lookup_pos plr hp test lr hlk).le) h
    · rw [if_neg hres] at h
      by_cases hres2 : result = "Negative"
      · rw [if_pos hres2] at h
        cases hlk : nlr.lookup test with
        | none => rw [hlk] at h; cases h
        | some lr =>
          rw [hlk] at h
          exact ih (odds * lr) odds'
            (mul_nonneg h0 (lookup_pos nlr hn test lr hlk).le) h
      · rw [if_neg hres2] at h
        exact ih odds odds' h0 h

/-- The `nb_rf` bucket always lies in the range 1..3. -/
theorem nb_rf_of_count_bounds (c : ℕ) : 1 ≤ nb_rf_of_count c ∧ nb_rf_of_count c ≤ 3 := by
  unfold nb_rf_of_count
  split
  · norm_num
  · split <;> norm_num

/-- The capped, scaled logistic transform used by `calculate_rf_cl` is
monotone in the logit. -/
theorem logistic_min_mono (x y : ℝ) (h : x ≤ y) :
    min ((1 / (1 + Real.exp (-x))) * 100) 100 ≤ min ((1 / (1 + Real.exp (-y))) * 100) 100 := by
  apply min_le_min _ le_rfl
  apply mul_le_mul_of_nonneg_right _ (by norm_num)
  have he : Real.exp (-y) ≤ Real.exp (-x) := Real.exp_le_exp.2 (by linarith)
  have hpos : 0 < 1 + Real.exp (-y) := by positivity
  exact one_div_le_one_div_of_le hpos (by linarith)

/-! ### Claim C1 (corrected)

`get_recommendations` is not a function of `(adjusted_ptp, completed_tests)`
alone: it reads the ambient `st.session_state.test_results` store.  With
identical arguments but different store contents the outputs differ
(counterexample below).  What does hold: the output is a deterministic
function of the arguments together with the store entries the engine
reads (`ccta` and the five functional tests). -/

/-- C1 counterexample: identical `adjusted_ptp` and `completed_tests`, but a
different ambient test-results store, give different recommendation lists. -/
theorem get_recommendations_reads_ambient_store :
    get_recommendations 70 (fun s => s == "ccta_done")
        (fun s => if s == "ccta" then some "Positive" else none) ≠
      get_recommendations 70 (fun s => s == "ccta_done") (fun _ => none) := by
  simp [get_recommendations, functional_tests, ccta_high_risk_rec, functional_imaging_rec]
  norm_num [Recommendation.mk.injEq, very_high_ptp_rec]
  decide

/-- C1 amended: `get_recommendations` is deterministic in its arguments and
the ambient test-results store; two stores that agree on the keys the engine
reads (`ccta` and the five functional tests) give identical outputs for
identical arguments. -/
theorem get_recommendations_deterministic_in_store :
    ∀ (p : ℚ) (ct : String → Bool) (tr tr' : String → Option String),
      tr "ccta" = tr' "ccta" →
      (∀ t ∈ functional_tests, tr t = tr' t) →
      get_recommendations p ct tr = get_recommendations p ct tr' := by
  intro p ct tr tr' hccta hall
  have h1 := hall "stress_ecg" (by simp [functional_tests])
  have h2 := hall "stress_echo" (by simp [functional_tests])
  have h3 := hall "spect" (by simp [functional_tests])
  have h4 := hall "pet" (by simp [functional_tests])
  have h5 := hall "stress_cmr" (by simp [functional_tests])
  simp only [get_recommendations, functional_tests, List.any_cons, List.any_nil,
    hccta, h1, h2, h3, h4, h5]

/-- C1 witness: two stores differing only on a key the engine never reads
give the same output. -/
theorem get_recommendations_deterministic_in_store_witness :
    get_recommendations 10 (fun _ => false)
        (fun s => if s == "unrelated_key" then some "Positive" else none) =
      get_recommendations 10 (fun _ => false) (fun _ => none) :=
  get_recommendations_deterministic_in_store 10 _ _ _ (by simp) (by decide)

/-! ### Claim C2 (code_bug)

The spec requires 0 and 100 to be fixed points of
`adjust_likelihood_for_test_results`, handled without a division-by-zero
error.  The code computes `odds = base/(100-base)` unguarded: at
`base = 100` Python raises `ZeroDivisionError` (embedded: `none`), so 100 is
not returned unchanged.  The 0 endpoint does behave as the spec says. -/

/-- C2: at base 100 the code produces no value (it raises), contrary to the
required `100 → 100` fixed point; at base 0 it returns 0 as required. -/
theorem adjust_boundary_fixed_points :
    adjust_likelihood_for_test_results 100 [] "anatomical" = none ∧
    adjust_likelihood_for_test_results 0 [] "anatomical" = some 0 := by
  constructor
  · simp only [adjust_likelihood_for_test_results, String.reduceEq]
    norm_num
  · simp only [adjust_likelihood_for_test_results, apply_test_lrs, String.reduceEq]
    norm_num

/-! ### Claim C3 (code_bug)

The spec requires a test identifier with no LR entry for the active
reference standard to be skipped.  The code indexes `positive_lr[test]`
directly, so e.g. `stress_ecg : Positive` under the functional standard
raises `KeyError` (embedded: `none`) instead of being skipped: the result
does not equal the result on the map with the entry removed, because there
is no result at all. -/

/-- C3: a `stress_ecg` entry under the functional standard makes the call
produce no value (it raises), while the same call without the entry
returns 50. -/
theorem adjust_missing_key_raises :
    adjust_likelihood_for_test_results 50 [("stress_ecg", "Positive")] "functional" = none ∧
    adjust_likelihood_for_test_results 50 [] "functional" = some 50 := by
  constructor
  · simp only [adjust_likelihood_for_test_results, apply_test_lrs, FUNCTIONAL_POSITIVE_LR,
      List.lookup, String.reduceEq, String.reduceBEq]
    norm_num
  · simp only [adjust_likelihood_for_test_results, apply_test_lrs, String.reduceEq]
    norm_num

/-! ### Claim C4 (corrected)

`calculate_rf_cl` and `calculate_cacs_cl` always return values in [0,100]
on valid inputs.  `adjust_likelihood_for_test_results`, however, produces
no output at all at base probability 100 (division by zero; counterexample
below), so the claim holds for it only in the amended form: whenever the
function produces a value, that value lies in [0,100]. -/

/-- C4 counterexample: at base probability 100 (a valid input under the
claim) the adjustment stage produces no output, so no output in [0,100]
exists. -/
theorem adjust_at_100_produces_no_output :
    adjust_likelihood_for_test_results 100 [("ccta", "Positive")] "anatomical" = none := by
  simp only [adjust_likelihood_for_test_results, String.reduceEq]
  norm_num

/-- C4 amended: the two model stages always return values in [0,100] on
valid inputs, and the adjustment stage's value lies in [0,100] whenever it
returns one. -/
theorem stage_outputs_in_range :
    (∀ (age sex_binary : ℤ) (symptoms : String) (risk_factors : List (String × Bool)),
      18 ≤ age → age ≤ 100 → (sex_binary = 0 ∨ sex_binary = 1) →
      0 ≤ calculate_rf_cl age sex_binary symptoms risk_factors ∧
        calculate_rf_cl age sex_binary symptoms risk_factors ≤ 100) ∧
    (∀ (base : ℚ) (cacs : ℤ), 0 ≤ base → base ≤ 100 → 0 ≤ cacs →
      0 ≤ calculate_cacs_cl base cacs ∧ calculate_cacs_cl base cacs ≤ 100) ∧
    (∀ (base : ℚ) (tr : List (String × String)) (ref : String) (q : ℚ),
      0 ≤ base → base ≤ 100 →
      adjust_likelihood_for_test_results base tr ref = some q →
      0 ≤ q ∧ q ≤ 100) := by
  refine ⟨?_, ?_, ?_⟩
  · intro age sex symptoms rfs _ _ _
    simp only [calculate_rf_cl]
    refine ⟨le_min (by positivity) (by norm_num), min_le_right _ _⟩
  · intro base cacs h0 h1 _
    simp only [calculate_cacs_cl]
    refine ⟨le_min ?_ (by norm_num), min_le_right _ _⟩
    have hb : (0 : ℚ) ≤ base / 100 := by positivity
    have f1 : (0 : ℚ) ≤ if 1 ≤ cacs ∧ cacs ≤ 9 then 1 else 0 := by split <;> norm_num
    have f2 : (0 : ℚ) ≤ if 10 ≤ cacs ∧ cacs ≤ 99 then 1 else 0 := by split <;> norm_num
    have f3 : (0 : ℚ) ≤ if 100 ≤ cacs ∧ cacs ≤ 399 then 1 else 0 := by split <;> norm_num
    have f4 : (0 : ℚ) ≤ if 400 ≤ cacs ∧ cacs ≤ 999 then 1 else 0 := by split <;> norm_num
    have f5 : (0 : ℚ) ≤ if 1000 ≤ cacs then 1 else 0 := by split <;> norm_num
    nlinarith [mul_nonneg hb f1, mul_nonneg hb f2, mul_nonneg hb f3, mul_nonneg hb f4,
      mul_nonneg hb f5]
  · intro base tr ref q h0 h1 hadj
    have hplr : ∀ p ∈ (if ref = "functional" then FUNCTIONAL_POSITIVE_LR
        else ANATOMICAL_POSITIVE_LR), (0 : ℚ) < p.2 := by
      split
      · exact functional_positive_lr_pos
      · exact anatomical_positive_lr_pos
    have hnlr : ∀ p ∈ (if ref = "functional" then FUNCTIONAL_NEGATIVE_LR
        else ANATOMICAL_NEGATIVE_LR), (0 : ℚ) < p.2 := by
      split
      · exact functional_negative_lr_pos
      · exact anatomical_negative_lr_pos
    simp only [adjust_likelihood_for_test_results] at hadj
    by_cases hne : 100 - base = 0
    · rw [if_pos hne] at hadj; cases hadj
    · rw [if_neg hne] at hadj
      have hlt : 0 < 100 - base := lt_of_le_of_ne (by linarith) (Ne.symm hne)
      rcases Option.bind_eq_some.1 hadj with ⟨odds, happ, hif⟩
      have hodds : 0 ≤ odds :=
        apply_test_lrs_nonneg _ _ hplr hnlr tr _ odds (div_nonneg h0 hlt.le) happ
      rw [if_neg (by positivity : ¬(1 + odds = 0))] at hif
      cases hif
      refine ⟨le_min ?_ (by norm_num), min_le_right _ _⟩
      exact mul_nonneg (div_nonneg hodds (by linarith)) (by norm_num)

/-- C4 witness: the range theorem applied to concrete inputs of each stage. -/
theorem stage_outputs_in_range_witness :
    (0 ≤ calculate_rf_cl 50 1 "typical" [("Diabetes", true)] ∧
      calculate_rf_cl 50 1 "typical" [("Diabetes", true)] ≤ 100) ∧
    (0 ≤ calculate_cacs_cl 50 100 ∧ calculate_cacs_cl 50 100 ≤ 100) ∧
    (0 ≤ (2775 / 34 : ℚ) ∧ (2775 / 34 : ℚ) ≤ 100) :=
  ⟨stage_outputs_in_range.1 50 1 "typical" [("Diabetes", true)]
      (by norm_num) (by norm_num) (Or.inr rfl),
   stage_outputs_in_range.2.1 50 100 (by norm_num) (by norm_num) (by norm_num),
   stage_outputs_in_range.2.2 50 [("ccta", "Positive")] "anatomical" (2775 / 34)
      (by norm_num) (by norm_num)
      (by
        simp only [adjust_likelihood_for_test_results, apply_test_lrs,
          ANATOMICAL_POSITIVE_LR, List.lookup, String.reduceEq, String.reduceBEq]
        norm_num)⟩

/-! ### Claim C5 (confirmed) -/

/-- C5: whenever CCTA is completed and its recorded result is Positive, the
engine returns exactly the single high-risk ICA recommendation, with class
I and level A, for every probability value. -/
theorem ccta_positive_single_ica :
    ∀ (p : ℚ) (ct : String → Bool) (tr : String → Option String),
      ct "ccta_done" = true → tr "ccta" = some "Positive" →
      get_recommendations p ct tr = [ccta_high_risk_rec] ∧
      ccta_high_risk_rec.test = "Invasive Coronary Angiography" ∧
      ccta_high_risk_rec.class_ = some "I" ∧ ccta_high_risk_rec.level = some "A" := by
  intro p ct tr h1 h2
  refine ⟨?_, rfl, rfl, rfl⟩
  simp [get_recommendations, h1, h2]

/-- C5 witness: the override fires at probability 70, which is not above 85. -/
theorem ccta_positive_single_ica_witness :
    get_recommendations 70 (fun s => s == "ccta_done")
        (fun s => if s == "ccta" then some "Positive" else none) = [ccta_high_risk_rec] ∧
      ccta_high_risk_rec.test = "Invasive Coronary Angiography" ∧
      ccta_high_risk_rec.class_ = some "I" ∧ ccta_high_risk_rec.level = some "A" :=
  ccta_positive_single_ica 70 _ _ (by simp) (by simp)

/-! ### Claim C6 (confirmed) -/

/-- C6: the risk-factor count buckets as 0,1 → 1; 2,3 → 2; 4,5 → 3, and
`calculate_rf_cl` depends on the risk-factor set only through its count of
true flags. -/
theorem nb_rf_bucketing_and_count_determines_rf_cl :
    (nb_rf_of_count 0 = 1 ∧ nb_rf_of_count 1 = 1 ∧ nb_rf_of_count 2 = 2 ∧
      nb_rf_of_count 3 = 2 ∧ nb_rf_of_count 4 = 3 ∧ nb_rf_of_count 5 = 3) ∧
    (∀ (age sex_binary : ℤ) (symptoms : String) (rfs1 rfs2 : List (String × Bool)),
      rfs1.countP (fun p => p.2) = rfs2.countP (fun p => p.2) →
      calculate_rf_cl age sex_binary symptoms rfs1 =
        calculate_rf_cl age sex_binary symptoms rfs2) := by
  refine ⟨by decide, ?_⟩
  intro age sex symptoms rfs1 rfs2 h
  simp only [calculate_rf_cl, h]

/-- C6 witness: two different single-risk-factor sets give the same output. -/
theorem nb_rf_bucketing_witness :
    calculate_rf_cl 50 1 "typical" [("Diabetes", true), ("Hypertension", false)] =
      calculate_rf_cl 50 1 "typical" [("Dyslipidemia", true), ("Current/Past Smoking", false)] :=
  nb_rf_bucketing_and_count_determines_rf_cl.2 50 1 "typical" _ _ (by decide)

/-! ### Claim C7 (confirmed)

The age slope of the logit is `0.0844 - 0.0187·symp_typical - 0.0131·nb_rf`,
which is at least `0.0844 - 0.0187 - 3·0.0131 = 0.0264 > 0`, so the logit,
and with it the capped logistic output, is non-decreasing in age. -/

/-- C7: `calculate_rf_cl` is monotonically non-decreasing in age on [18,100]
for fixed sex, symptoms and risk factors. -/
theorem calculate_rf_cl_age_monotone :
    ∀ (a1 a2 sex_binary : ℤ) (symptoms : String) (rfs : List (String × Bool)),
      18 ≤ a1 → a1 ≤ a2 → a2 ≤ 100 →
      calculate_rf_cl a1 sex_binary symptoms rfs ≤
        calculate_rf_cl a2 sex_binary symptoms rfs := by
  intro a1 a2 sex symptoms rfs h18 h12 h100
  simp only [calculate_rf_cl, CONST, SEX_COEF, AGE_COEF, TYPICAL_COEF, NON_ANGINAL_COEF,
    AGE_TYPICAL_COEF, AGE_RF_COEF, TYPICAL_RF_COEF, SEX_RF_COEF]
  apply logistic_min_mono
  set st : ℝ := if symptoms = "typical" then 1 else 0 with hst
  set nb : ℝ := (nb_rf_of_count (rfs.countP fun p => p.2) : ℝ) with hnb
  have hst0 : 0 ≤ st := by rw [hst]; split <;> norm_num
  have hst1 : st ≤ 1 := by rw [hst]; split <;> norm_num
  have hnb1 : 1 ≤ nb := by
    rw [hnb]; exact_mod_cast (nb_rf_of_count_bounds _).1
  have hnb3 : nb ≤ 3 := by
    rw [hnb]; exact_mod_cast (nb_rf_of_count_bounds _).2
  have ha : (a1 : ℝ) ≤ (a2 : ℝ) := by exact_mod_cast h12
  have hslope : (0 : ℝ) ≤ 0.0844 - 0.0187 * st - 0.0131 * nb := by linarith
  have hdiff : (0 : ℝ) ≤ (a2 : ℝ) - (a1 : ℝ) := by linarith
  nlinarith [mul_nonneg hslope hdiff]

/-- C7 witness: ages 40 and 60 at fixed other inputs. -/
theorem calculate_rf_cl_age_monotone_witness :
    calculate_rf_cl 40 1 "typical" [("Diabetes", true)] ≤
      calculate_rf_cl 60 1 "typical" [("Diabetes", true)] :=
  calculate_rf_cl_age_monotone 40 60 1 "typical" [("Diabetes", true)]
    (by norm_num) (by norm_num) (by norm_num)

/-! ### Claim C8 (corrected)

The empty-map identity holds for every probability in [0,100); at exactly
100 the unguarded odds transform produces no value at all (division by
zero), so the claimed range [0,100] must shrink to [0,100). -/

/-- C8 counterexample: at p = 100 the empty-map call does not return 100
(it produces no value). -/
theorem adjust_empty_at_100_not_identity :
    adjust_likelihood_for_test_results 100 [] "anatomical" ≠ some 100 := by
  simp only [adjust_likelihood_for_test_results, String.reduceEq]
  norm_num
  exact fun h => Option.noConfusion h

/-- C8 amended: with an empty test-results map and the anatomical standard,
every probability in [0,100) is returned unchanged. -/
theorem adjust_empty_anatomical_identity (p : ℚ) (h0 : 0 ≤ p) (h1 : p < 100) :
    adjust_likelihood_for_test_results p [] "anatomical" = some p := by
  have hlt : 0 < 100 - p := by linarith
  have hne : 100 - p ≠ 0 := ne_of_gt hlt
  have h1odds : 1 + p / (100 - p) ≠ 0 := by positivity
  simp only [adjust_likelihood_for_test_results, apply_test_lrs, String.reduceEq,
    if_neg hne, if_false, Option.some_bind]
  rw [if_neg h1odds]
  have key : p / (100 - p) / (1 + p / (100 - p)) * 100 = p := by
    field_simp
  rw [key, min_eq_left h1.le]

/-- C8 witness: the identity at p = 50. -/
theorem adjust_empty_anatomical_identity_witness :
    adjust_likelihood_for_test_results 50 [] "anatomical" = some 50 :=
  adjust_empty_anatomical_identity 50 (by norm_num) (by norm_num)

/-! ### Claim C9 (corrected)

With a zero Agatston score no bin fires, and the output is exactly
`(0.0013 + (base/100)·0.2021)·100`.  The spec's numeric check is a slip:
at base 50 this is 10.235, not approximately 10.18 (the difference is
exactly 0.055). -/

/-- C9 counterexample: the value at (50, 0) is 10.235, which differs from
the claimed 10.18 by 0.055. -/
theorem calculate_cacs_cl_at_50_0 :
    calculate_cacs_cl 50 0 = 10.235 ∧ calculate_cacs_cl 50 0 - 10.18 = 0.055 := by
  constructor <;> norm_num [calculate_cacs_cl]

/-- C9 amended: at Agatston score 0 the model reduces to intercept plus the
base-proportion main effect, scaled; at base 50 this equals 10.235. -/
theorem calculate_cacs_cl_zero_score (b : ℚ) (_h0 : 0 ≤ b) (h1 : b ≤ 100) :
    calculate_cacs_cl b 0 = (0.0013 + b / 100 * 0.2021) * 100 := by
  simp only [calculate_cacs_cl]
  norm_num
  linarith

/-- C9 witness: the reduced formula at base 50. -/
theorem calculate_cacs_cl_zero_score_witness :
    calculate_cacs_cl 50 0 = (0.0013 + 50 / 100 * 0.2021) * 100 :=
  calculate_cacs_cl_zero_score 50 (by norm_num) (by norm_num)

/-! ### Claim C10 (confirmed) -/

/-- C10: for 50 < p ≤ 85, with some functional test completed and Negative,
CCTA not completed, and no completed test Positive or Non-diagnostic, the
engine returns the empty list. -/
theorem negative_functional_high_ptp_empty :
    ∀ (p : ℚ) (ct : String → Bool) (tr : String → Option String),
      50 < p → p ≤ 85 → ct "ccta_done" = false →
      (∃ t ∈ functional_tests, ct (t ++ "_done") = true ∧ tr t = some "Negative") →
      (∀ t ∈ functional_tests, ct (t ++ "_done") = true →
        tr t ≠ some "Positive" ∧ tr t ≠ some "Non-diagnostic") →
      get_recommendations p ct tr = [] := by
  intro p ct tr hp1 hp2 hccta hex hall
  have hfun : (functional_tests.any fun t => ct (t ++ "_done")) = true := by
    rcases hex with ⟨t, ht, hdone, _⟩
    exact List.any_eq_true.2 ⟨t, ht, hdone⟩
  have hpos : (functional_tests.any fun t =>
      ct (t ++ "_done") && decide (tr t = some "Positive")) = false := by
    rw [List.any_eq_false]
    intro t ht
    cases hd : ct (t ++ "_done") with
    | false => simp [hd]
    | true => simp [hd, (hall t ht hd).1]
  have hnd : (functional_tests.any fun t =>
      ct (t ++ "_done") && decide (tr t = some "Non-diagnostic")) = false := by
    rw [List.any_eq_false]
    intro t ht
    cases hd : ct (t ++ "_done") with
    | false => simp [hd]
    | true => simp [hd, (hall t ht hd).2]
  have h85 : ¬(85 < p) := not_lt.2 hp2
  have h50 : ¬(p ≤ 50) := not_le.2 hp1
  have h5 : ¬(p ≤ 5) := fun h => h50 (by linarith)
  simp only [get_recommendations, hccta, hfun, hpos, hnd]
  simp [h85, h50, h5]

/-- C10 witness: probability 70 with only a Negative SPECT completed. -/
theorem negative_functional_high_ptp_empty_witness :
    get_recommendations 70 (fun s => s == "spect_done")
        (fun s => if s == "spect" then some "Negative" else none) = [] :=
  negative_functional_high_ptp_empty 70 _ _ (by norm_num) (by norm_num) (by decide)
    (by decide) (by decide)

end CADence
